import Mathlib

/-!
Verification development for the MatchesNearby repository.

The repository is the caching/freshness layer of a football-fixtures app:
a Supabase schema (`src/database/supabase_schema.sql`) with a `matches`
table and a `sync_log` table, a backend contract document
(`src/unnamed/part_001`) fixing the live-status classification and the
adapter defaults, and a React frontend whose `useMatches` hook
(`src/unnamed/part_003`) implements the date filter and the
date/distance sorting, with `matchAdapter.ts` mapping backend rows to
the frontend `Match` type.

Timestamps are embedded as integer epoch milliseconds, JS numbers used
for coordinates/distances as rationals, optional JSON fields as
`Option`.  JS `Array.prototype.sort` with a numeric comparator is a
stable sort; it is embedded as `List.insertionSort`, which is stable
for the reflexive-total orders used here.
-/

/-- Competition type, from the schema's `competition_type` column and the
contract's `"league" | "cup" | "international"` enumeration. -/
inductive CompetitionType where
  | league
  | cup
  | international
deriving DecidableEq

/-- The exact JSON shape returned by the backend inside the `matches`
array of `GET /api/matches`, from `matchAdapter.ts` (`BackendMatch`). -/
structure BackendMatch where
  id : String
  homeTeam : String
  awayTeam : String
  homeTeamBadge : Option String
  awayTeamBadge : Option String
  competition : String
  competitionType : Option CompetitionType
  gameweek : Option String
  kickoff : Int
  venue : String
  venueCity : Option String
  latitude : Option Rat
  longitude : Option Rat
  distance : Option Rat
  isLive : Option Bool
deriving DecidableEq

/-- The internal frontend `Match` type from `src/unnamed/part_003`
(`src/types/sdui.ts`): same shape as the backend row except that
`venueCity` becomes `venueAddress`. -/
structure Match where
  id : String
  homeTeam : String
  awayTeam : String
  homeTeamBadge : Option String
  awayTeamBadge : Option String
  competition : String
  competitionType : Option CompetitionType
  gameweek : Option String
  kickoff : Int
  venue : String
  venueAddress : Option String
  latitude : Option Rat
  longitude : Option Rat
  distance : Option Rat
  isLive : Option Bool
deriving DecidableEq

/-- `toMatch` from `matchAdapter.ts` lines 39-59: maps a backend match
into the internal `Match` type, renaming `venueCity` to `venueAddress`,
defaulting `latitude`/`longitude` to `0` and `competitionType` to
`"league"` when missing, and passing every other field through. -/
def toMatch (raw : BackendMatch) : Match :=
  { id := raw.id
    homeTeam := raw.homeTeam
    awayTeam := raw.awayTeam
    homeTeamBadge := raw.homeTeamBadge
    awayTeamBadge := raw.awayTeamBadge
    competition := raw.competition
    competitionType := some (raw.competitionType.getD CompetitionType.league)
    gameweek := raw.gameweek
    kickoff := raw.kickoff
    venue := raw.venue
    venueAddress := raw.venueCity
    latitude := some (raw.latitude.getD 0)
    longitude := some (raw.longitude.getD 0)
    distance := raw.distance
    isLive := raw.isLive }

/-- `toMatchList` from `matchAdapter.ts` line 62. -/
def toMatchList (raw : List BackendMatch) : List Match :=
  raw.map toMatch

/-- Live-status classification from the backend contract
(`src/unnamed/part_001` lines 130-144): `isLive` is true exactly when
`fixture.status.short` is one of `1H`, `2H`, `HT`, `ET`, `P`, `BT`,
`LIVE`; all other status values map to false. -/
def classifyLive (s : String) : Bool :=
  s == "1H" || s == "2H" || s == "HT" || s == "ET" ||
  s == "P" || s == "BT" || s == "LIVE"

/-- A persisted row of the `matches` table from
`src/database/supabase_schema.sql` lines 16-33.  The schema stores an
`is_live` boolean column and does not store the raw status token. -/
structure MatchRow where
  id : String
  home_team : String
  away_team : String
  home_team_badge : Option String
  away_team_badge : Option String
  competition : String
  competition_type : String
  gameweek : Option String
  kickoff : Int
  venue : Option String
  venue_city : Option String
  is_live : Bool
  league_id : Int
  match_date : Int
  synced_at : Int
  created_at : Int
deriving DecidableEq

/-- The fixture store keyed by the `matches` primary key `id`. -/
abbrev FixtureStore : Type := String → Option MatchRow

/-- Modelled from the spec: the backend `INSERT ... ON CONFLICT` upsert
statement is not in the repository (only the schema and its comment,
lines 10-13, are).  Per §4.2 of the spec, `upsert` inserts when no row
with the incoming `id` exists, and otherwise replaces the whole stored
row with the incoming snapshot (last-write-wins, no field-level merge),
keeping the key `id`. -/
def upsert (s : FixtureStore) (f : MatchRow) : FixtureStore :=
  fun i => if i = f.id then some f else s i

/-- Sync-ledger partition key from the `sync_log` table: the
`(league_id, sync_date)` pair (`UNIQUE(league_id, sync_date)`), with
the date embedded as a day number. -/
abbrev SyncKey : Type := Int × Int

/-- The sync ledger: one `synced_at` timestamp per `(league_id,
sync_date)` pair, `none` when that slice was never checked. -/
abbrev SyncLedger : Type := SyncKey → Option Int

/-- Modelled from the spec: the backend freshness check over `sync_log`
is not in the repository.  Per §4.1, `isFresh` is true iff a sync
record exists for the key and `now - lastConfirmedAt < ttl`; a missing
record is treated as stale. -/
def isFresh (L : SyncLedger) (k : SyncKey) (ttl now : Int) : Bool :=
  match L k with
  | none => false
  | some t => decide (now - t < ttl)

/-- Modelled from the spec: the backend `markSynced` upsert over
`sync_log` is not in the repository.  Per §4.1, it is an idempotent
upsert that always advances `lastConfirmedAt` to the later of the
existing and the new timestamp. -/
def markSynced (L : SyncLedger) (k : SyncKey) (a : Int) : SyncLedger :=
  fun j =>
    if j = k then
      some (match L k with
            | none => a
            | some t => max t a)
    else L j

/-- Sort key used by the `useMatches` distance sort
(`src/unnamed/part_003` line 124): `a.distance ?? 0`. -/
def distKey (m : Match) : Rat := m.distance.getD 0

/-- The comparator relation of the distance sort: ordered by
`(distance ?? 0)` ascending. -/
def distLE (a b : Match) : Prop := distKey a ≤ distKey b

instance : DecidableRel distLE :=
  fun a b => inferInstanceAs (Decidable (distKey a ≤ distKey b))

instance : IsTotal Match distLE := ⟨fun a b => le_total (distKey a) (distKey b)⟩

instance : IsTrans Match distLE := ⟨fun _ _ _ => le_trans⟩

/-- The comparator relation of the date sort (`src/unnamed/part_003`
lines 126-129): ordered by kickoff instant ascending. -/
def kickoffLE (a b : Match) : Prop := a.kickoff ≤ b.kickoff

instance : DecidableRel kickoffLE :=
  fun a b => inferInstanceAs (Decidable (a.kickoff ≤ b.kickoff))

instance : IsTotal Match kickoffLE := ⟨fun a b => le_total a.kickoff b.kickoff⟩

instance : IsTrans Match kickoffLE := ⟨fun _ _ _ => le_trans⟩

/-- The `sort === "distance"` branch of `useMatches`
(`src/unnamed/part_003` lines 123-124):
`results.sort((a, b) => (a.distance ?? 0) - (b.distance ?? 0))`.
JS `sort` is stable, embedded as a stable insertion sort over the
comparator's order. -/
def mockSortByDistance (ms : List Match) : List Match :=
  List.insertionSort distLE ms

/-- The date-sort branch of `useMatches` (`src/unnamed/part_003`
lines 125-130): `results.sort((a, b) => kickoffTime(a) - kickoffTime(b))`,
again a stable sort, by kickoff ascending.  This is the only ordering
applied on the mock "upcoming" path; no fixture is removed. -/
def mockSortByDate (ms : List Match) : List Match :=
  List.insertionSort kickoffLE ms

/-- Civil-date computation: day number (days since 1970-01-01) to
`(year, month, day)`, the standard era-based algorithm; valid for every
day number at or after year 0, which covers all dates handled here. -/
def civilFromDays (z : Int) : Int × Nat × Nat :=
  let zn : Nat := (z + 719468).toNat
  let era : Nat := zn / 146097
  let doe : Nat := zn % 146097
  let yoe : Nat := (doe - doe / 1460 + doe / 36524 - doe / 146096) / 365
  let doy : Nat := doe - (365 * yoe + yoe / 4 - yoe / 100)
  let mp : Nat := (5 * doy + 2) / 153
  let d : Nat := doy - (153 * mp + 2) / 5 + 1
  let m : Nat := if mp < 10 then mp + 3 else mp - 9
  ((yoe : Int) + (era : Int) * 400 + (if m ≤ 2 then 1 else 0), m, d)

/-- Day number of an instant (epoch milliseconds) in a timezone that is
`off` minutes ahead of UTC. -/
def localDayNumber (ms off : Int) : Int :=
  (ms + off * 60000).fdiv 86400000

/-- The calendar date the JS local-time getters `getFullYear()` /
`getMonth()` / `getDate()` observe for an instant `ms`, in a runtime
timezone `off` minutes ahead of UTC. -/
def jsLocalDate (ms off : Int) : Int × Nat × Nat :=
  civilFromDays (localDayNumber ms off)

/-- The calendar date of an instant interpreted in UTC, as the spec's
`queryByDate` contract words it ("whose kickoff, interpreted in UTC,
falls on that calendar date"). -/
def utcCalendarDate (ms : Int) : Int × Nat × Nat :=
  civilFromDays (ms.fdiv 86400000)

/-- The date filter of `useMatches` (`src/unnamed/part_003` lines
111-121): keeps a match when `new Date(m.kickoff)` and the query date
`d` agree on `getFullYear()`, `getMonth()` and `getDate()` — that is,
when the two instants fall on the same calendar day of the runtime's
local timezone (`off` minutes ahead of UTC). -/
def mockFilterByDate (fixtures : List Match) (d off : Int) : List Match :=
  fixtures.filter (fun m => decide (jsLocalDate m.kickoff off = jsLocalDate d off))

/-- Resolved coordinates held by the geocoding cache. -/
structure Coords where
  lat : Rat
  lng : Rat
deriving DecidableEq

/-- Modelled from the spec: no GeoCache implementation is in the
repository.  Per §4.3/§9, the cache keeps resolved entries, a map from
in-flight place name to the shared in-progress promise, and here also a
counter of upstream geocode invocations. -/
structure GeoState where
  cache : String → Option Coords
  inflight : String → Option Nat
  upstreamCalls : Nat
  nextPromise : Nat

/-- Outcome of starting a `resolve` call: a cache hit, joining an
already in-flight shared promise, or starting a new upstream call. -/
inductive ResolveOutcome where
  | cachedHit (c : Coords)
  | joined (p : Nat)
  | started (p : Nat)
deriving DecidableEq

/-- Modelled from the spec: single-flight `resolve` per §4.3/§9 — a
cached name returns immediately; a name with an in-flight resolution
joins that shared promise without touching upstream; otherwise one new
upstream call starts and is recorded in the in-flight map. -/
def resolveStart (s : GeoState) (name : String) : ResolveOutcome × GeoState :=
  match s.cache name with
  | some c => (ResolveOutcome.cachedHit c, s)
  | none =>
    match s.inflight name with
    | some p => (ResolveOutcome.joined p, s)
    | none =>
      (ResolveOutcome.started s.nextPromise,
       { s with
         inflight := fun n => if n = name then some s.nextPromise else s.inflight n
         upstreamCalls := s.upstreamCalls + 1
         nextPromise := s.nextPromise + 1 })

/-- Modelled from the spec: completion of an in-flight resolution — the
promise is removed from the in-flight map, and the result is cached
only on success (a failed resolution must not poison the cache). -/
def completeResolve (s : GeoState) (name : String) (result : Option Coords) : GeoState :=
  { s with
    cache := fun n =>
      if n = name then
        match result with
        | some c => some c
        | none => s.cache n
      else s.cache n
    inflight := fun n => if n = name then none else s.inflight n }

/-- A concrete `Match` builder for witnesses and counterexamples. -/
def mkMatch (i : String) (k : Int) (d : Option Rat) : Match :=
  { id := i
    homeTeam := "Arsenal"
    awayTeam := "Liverpool"
    homeTeamBadge := none
    awayTeamBadge := none
    competition := "Premier League"
    competitionType := some CompetitionType.league
    gameweek := none
    kickoff := k
    venue := "Emirates Stadium"
    venueAddress := none
    latitude := some 0
    longitude := some 0
    distance := d
    isLive := some false }

/-- A concrete ledger: league 39 confirmed at time 1000 for day 20527,
no other slice ever checked. -/
def exampleLedger : SyncLedger :=
  fun k => if k = ((39 : Int), (20527 : Int)) then some 1000 else none

/-- A concrete stored `matches` row (earlier snapshot). -/
def exampleStoredRow : MatchRow :=
  { id := "12345"
    home_team := "Arsenal"
    away_team := "Liverpool"
    home_team_badge := none
    away_team_badge := none
    competition := "Premier League"
    competition_type := "league"
    gameweek := some "Regular Season - 27"
    kickoff := 430200000
    venue := some "Emirates Stadium"
    venue_city := some "London"
    is_live := false
    league_id := 39
    match_date := 4
    synced_at := 100
    created_at := 50 }

/-- A concrete incoming `matches` row: same `id`, later `synced_at`,
every other field changed (rescheduled kickoff, went live). -/
def exampleIncomingRow : MatchRow :=
  { id := "12345"
    home_team := "Arsenal FC"
    away_team := "Liverpool FC"
    home_team_badge := some "https://media.api-sports.io/football/teams/42.png"
    away_team_badge := some "https://media.api-sports.io/football/teams/40.png"
    competition := "Premier League"
    competition_type := "league"
    gameweek := some "Regular Season - 28"
    kickoff := 433800000
    venue := some "Emirates Stadium"
    venue_city := some "London"
    is_live := true
    league_id := 39
    match_date := 5
    synced_at := 200
    created_at := 50 }

/-- A concrete fixture store holding only the earlier snapshot. -/
def exampleStore : FixtureStore :=
  fun i => if i = "12345" then some exampleStoredRow else none

/-- C1: `isFresh(partitionKey, ttl)` is true iff a sync record exists
for that partition key and `now - lastConfirmedAt < ttl`; a key never
marked synced yields false, and once `now - lastConfirmedAt ≥ ttl` it
yields false again. -/
theorem isFresh_spec (L : SyncLedger) (k : SyncKey) (ttl now : Int) :
    (isFresh L k ttl now = true ↔ ∃ t, L k = some t ∧ now - t < ttl) ∧
    (L k = none → isFresh L k ttl now = false) ∧
    (∀ t, L k = some t → ttl ≤ now - t → isFresh L k ttl now = false) := by
  unfold isFresh
  rcases h : L k with _ | t
  · simp
  · refine ⟨by simp, by simp, ?_⟩
    intro u hu hge
    obtain rfl : t = u := by simpa using hu
    simpa using not_lt.mpr hge

/-- Witness for `isFresh_spec` at the concrete ledger: fresh within the
TTL, false for a never-synced key, false once the TTL has elapsed. -/
theorem isFresh_spec_witness :
    isFresh exampleLedger (39, 20527) 600 1500 = true ∧
    isFresh exampleLedger (40, 20527) 600 1500 = false ∧
    isFresh exampleLedger (39, 20527) 500 1500 = false := by
  refine ⟨?_, ?_, ?_⟩
  · exact (isFresh_spec exampleLedger (39, 20527) 600 1500).1.mpr
      ⟨1000, by decide, by decide⟩
  · exact (isFresh_spec exampleLedger (40, 20527) 600 1500).2.1 (by decide)
  · exact (isFresh_spec exampleLedger (39, 20527) 500 1500).2.2 1000 (by decide) (by decide)

/-- C2: `upsert` on an existing row with a later `lastSyncedAt`
replaces the whole stored row with the incoming snapshot (the key being
the shared `id`), inserts when no row with that `id` exists, and leaves
every other `id` untouched. -/
theorem upsert_full_snapshot (s : FixtureStore) (f : MatchRow) :
    (∀ g, s f.id = some g → g.synced_at < f.synced_at →
      upsert s f f.id = some f) ∧
    (s f.id = none → upsert s f f.id = some f) ∧
    (∀ j, j ≠ f.id → upsert s f j = s j) := by
  refine ⟨fun g _ _ => by simp [upsert], fun _ => by simp [upsert], fun j hj => by simp [upsert, hj]⟩

/-- Witness for `upsert_full_snapshot` at a concrete store: the later
snapshot replaces the earlier one wholesale, and other keys are
unchanged. -/
theorem upsert_full_snapshot_witness :
    upsert exampleStore exampleIncomingRow "12345" = some exampleIncomingRow ∧
    upsert exampleStore exampleIncomingRow "99999" = none := by
  have h := upsert_full_snapshot exampleStore exampleIncomingRow
  exact ⟨h.1 exampleStoredRow (by decide) (by decide), h.2.2 "99999" (by decide)⟩

/-- C3: `classifyLive` returns true for exactly the closed token set
`{1H, 2H, HT, ET, P, BT, LIVE}` and false for every other string,
including the empty string and unknown tokens. -/
theorem classifyLive_closed_set (s : String) :
    (classifyLive s = true ↔
      s = "1H" ∨ s = "2H" ∨ s = "HT" ∨ s = "ET" ∨
      s = "P" ∨ s = "BT" ∨ s = "LIVE") ∧
    classifyLive "" = false ∧
    classifyLive "FT" = false ∧
    classifyLive "NS" = false := by
  refine ⟨?_, by decide, by decide, by decide⟩
  simp only [classifyLive, Bool.or_eq_true, beq_iff_eq, or_assoc]

/-- C10: `toMatch` is total, substitutes `0` for a missing latitude or
longitude and `league` for a missing competition type (so neither is
ever absent in its output), and passes every other field through
unchanged, renaming `venueCity` to `venueAddress`. -/
theorem toMatch_totalizes (raw : BackendMatch) :
    (toMatch raw).latitude = some (raw.latitude.getD 0) ∧
    (toMatch raw).longitude = some (raw.longitude.getD 0) ∧
    (toMatch raw).competitionType = some (raw.competitionType.getD CompetitionType.league) ∧
    ((toMatch raw).latitude).isSome = true ∧
    ((toMatch raw).longitude).isSome = true ∧
    ((toMatch raw).competitionType).isSome = true ∧
    (toMatch raw).id = raw.id ∧
    (toMatch raw).homeTeam = raw.homeTeam ∧
    (toMatch raw).awayTeam = raw.awayTeam ∧
    (toMatch raw).homeTeamBadge = raw.homeTeamBadge ∧
    (toMatch raw).awayTeamBadge = raw.awayTeamBadge ∧
    (toMatch raw).competition = raw.competition ∧
    (toMatch raw).gameweek = raw.gameweek ∧
    (toMatch raw).kickoff = raw.kickoff ∧
    (toMatch raw).venue = raw.venue ∧
    (toMatch raw).venueAddress = raw.venueCity ∧
    (toMatch raw).distance = raw.distance ∧
    (toMatch raw).isLive = raw.isLive :=
  ⟨rfl, rfl, rfl, rfl, rfl, rfl, rfl, rfl, rfl, rfl, rfl, rfl, rfl, rfl, rfl, rfl, rfl, rfl⟩

/-- C6: `markSynced` is idempotent, records the new timestamp on a
never-checked key, always advances `lastConfirmedAt` to the later of
the existing and the new timestamp (so it never regresses), and two
completions that arrive out of order produce the same ledger. -/
theorem markSynced_monotone (L : SyncLedger) (k : SyncKey) (a b : Int) :
    markSynced (markSynced L k a) k a = markSynced L k a ∧
    (L k = none → markSynced L k a k = some a) ∧
    (∀ t, L k = some t → markSynced L k a k = some (max t a)) ∧
    (∀ t u, L k = some t → markSynced L k a k = some u → t ≤ u ∧ a ≤ u) ∧
    markSynced (markSynced L k b) k a = markSynced (markSynced L k a) k b := by
  refine ⟨?_, ?_, ?_, ?_, ?_⟩
  · funext j
    by_cases hj : j = k
    · rcases h : L k with _ | t <;>
        simp [markSynced, hj, h, max_assoc]
    · simp [markSynced, hj]
  · intro h; simp [markSynced, h]
  · intro t h; simp [markSynced, h]
  · intro t u h hu
    have : u = max t a := by simpa [markSynced, h] using hu.symm
    subst this
    exact ⟨le_max_left t a, le_max_right t a⟩
  · funext j
    by_cases hj : j = k
    · rcases h : L k with _ | t <;>
        simp [markSynced, hj, h, max_assoc, max_comm, max_left_comm]
    · simp [markSynced, hj]

/-- Witness for `markSynced_monotone` at the concrete ledger: a
re-sync with a later completion advances the timestamp, an earlier
(out-of-order) completion does not regress it. -/
theorem markSynced_monotone_witness :
    markSynced exampleLedger (39, 20527) 2000 (39, 20527) = some 2000 ∧
    markSynced exampleLedger (39, 20527) 700 (39, 20527) = some 1000 ∧
    markSynced exampleLedger (40, 20530) 700 (40, 20530) = some 700 := by
  refine ⟨?_, ?_, ?_⟩
  · have h := (markSynced_monotone exampleLedger (39, 20527) 2000 0).2.2.1 1000 (by decide)
    simpa using h
  · have h := (markSynced_monotone exampleLedger (39, 20527) 700 0).2.2.1 1000 (by decide)
    simpa using h
  · exact (markSynced_monotone exampleLedger (40, 20530) 700 0).2.1 (by decide)

/-- A fixture with no resolved distance (backend omitted `distance`). -/
def matchNoCoords : Match := mkMatch "m-none" 100 none

/-- A fixture with a resolved distance of 5 km. -/
def matchFar : Match := mkMatch "m-far" 50 (some 5)

/-- The claim's placement property for C4: every fixture without a
distance value comes after every fixture that has one. -/
def noneAfterSome (l : List Match) : Prop :=
  List.Pairwise (fun a b => a.distance = none → b.distance = none) l

/-- C4 counterexample: the distance sort treats a missing distance as
`0`, so a fixture without resolved coordinates sorts *before* a
coordinate-bearing fixture at 5 km — the claimed
"coordinate-less after coordinate-bearing" placement fails. -/
theorem rankByDistance_counterexample :
    mockSortByDistance [matchFar, matchNoCoords] = [matchNoCoords, matchFar] ∧
    ¬ noneAfterSome (mockSortByDistance [matchFar, matchNoCoords]) ∧
    matchNoCoords.distance = none ∧
    matchFar.distance = some 5 := by
  refine ⟨by decide, ?_, by decide, by decide⟩
  intro h
  have : matchFar.distance = none := by
    have heq : mockSortByDistance [matchFar, matchNoCoords] = [matchNoCoords, matchFar] := by decide
    rw [heq] at h
    exact (List.pairwise_cons.mp h).1 matchFar (by simp) (by decide)
  simp [matchFar, mkMatch] at this

/-- C4 amended: the distance sort keeps every fixture (the output is a
permutation of the input) and orders the whole list by
`(distance ?? 0)` ascending; in particular the distance-bearing
fixtures appear in non-decreasing distance order, but fixtures without
a distance are keyed as `0` (placed first among non-negative
distances), and ties keep input order (stable sort) rather than being
broken by kickoff. -/
theorem rankByDistance_sorted_perm (ms : List Match) :
    (mockSortByDistance ms).Perm ms ∧
    List.Sorted distLE (mockSortByDistance ms) ∧
    List.Pairwise
      (fun a b => ∀ da db, a.distance = some da → b.distance = some db → da ≤ db)
      (mockSortByDistance ms) := by
  refine ⟨List.perm_insertionSort distLE ms, List.sorted_insertionSort distLE ms, ?_⟩
  refine (List.sorted_insertionSort distLE ms).imp ?_
  intro a b hab da db ha hb
  unfold distLE distKey at hab
  rw [ha, hb] at hab
  simpa using hab

/-- A fixture whose kickoff (epoch instant 0) is in the past relative
to query time 100. -/
def pastMatch : Match := mkMatch "m-past" 0 (some 1)

/-- C7 counterexample: the upcoming-query path only sorts by kickoff;
a fixture whose kickoff is already in the past (kickoff 0, now 100)
still appears in the result, so past fixtures are not excluded. -/
theorem queryUpcoming_counterexample :
    pastMatch ∈ mockSortByDate [pastMatch] ∧ pastMatch.kickoff < 100 := by
  decide

/-- C7 amended: the upcoming-query path returns a permutation of the
stored fixtures ordered by kickoff ascending; no fixture is excluded
(in particular past fixtures are kept — exclusion is delegated to the
upstream `next=N` request, which is outside this code). -/
theorem queryUpcoming_sorted_perm (ms : List Match) :
    (mockSortByDate ms).Perm ms ∧
    List.Sorted kickoffLE (mockSortByDate ms) :=
  ⟨List.perm_insertionSort kickoffLE ms, List.sorted_insertionSort kickoffLE ms⟩

/-- Query instant for the C5 counterexample: 1970-01-05T11:00:00Z. -/
def exampleQueryInstant : Int := 385200000

/-- A fixture kicking off 1970-01-05T23:30:00Z — same UTC calendar
date as `exampleQueryInstant`, but the next calendar day in a
UTC+1 runtime timezone. -/
def lateKickoffMatch : Match := mkMatch "m-late" 430200000 none

/-- C5 counterexample: the date filter compares the *local* calendar
day (`getFullYear`/`getMonth`/`getDate`), not the UTC one.  In a UTC+1
runtime (offset 60 minutes), a fixture whose kickoff shares its UTC
calendar date with the query instant is nevertheless filtered out,
because its local calendar day is the next day. -/
theorem queryByDate_counterexample :
    utcCalendarDate lateKickoffMatch.kickoff = utcCalendarDate exampleQueryInstant ∧
    lateKickoffMatch ∈ [lateKickoffMatch] ∧
    lateKickoffMatch ∉ mockFilterByDate [lateKickoffMatch] exampleQueryInstant 60 := by
  refine ⟨by decide, by decide, ?_⟩
  intro h
  have : jsLocalDate lateKickoffMatch.kickoff 60 = jsLocalDate exampleQueryInstant 60 := by
    have := (List.mem_filter.mp h).2
    simpa using this
  exact absurd this (by decide)

/-- C5 amended: when the runtime timezone is UTC (offset 0) — and only
then, in general — the date filter keeps exactly the fixtures whose
kickoff falls on the same UTC calendar date as the query instant. -/
theorem queryByDate_utc_offset_zero (fixtures : List Match) (d : Int) (m : Match) :
    m ∈ mockFilterByDate fixtures d 0 ↔
      m ∈ fixtures ∧ utcCalendarDate m.kickoff = utcCalendarDate d := by
  simp [mockFilterByDate, List.mem_filter, jsLocalDate, utcCalendarDate, localDayNumber]

/-- The C8 claim predicate: over the persisted `matches` rows, the
stored liveness flag is a function of the remaining stored columns
(as it would be if it were always recomputed rather than stored). -/
def isLiveDeterminedByRow (r1 r2 : MatchRow) : Prop :=
  r1.id = r2.id ∧ r1.home_team = r2.home_team ∧ r1.away_team = r2.away_team ∧
  r1.home_team_badge = r2.home_team_badge ∧ r1.away_team_badge = r2.away_team_badge ∧
  r1.competition = r2.competition ∧ r1.competition_type = r2.competition_type ∧
  r1.gameweek = r2.gameweek ∧ r1.kickoff = r2.kickoff ∧ r1.venue = r2.venue ∧
  r1.venue_city = r2.venue_city ∧ r1.league_id = r2.league_id ∧
  r1.match_date = r2.match_date ∧ r1.synced_at = r2.synced_at ∧
  r1.created_at = r2.created_at → r1.is_live = r2.is_live

/-- The stored snapshot with its `is_live` column set to true: the
same persisted state in every other column. -/
def exampleStoredRowLive : MatchRow :=
  { exampleStoredRow with is_live := true }

/-- C8 counterexample: `is_live` is a stored boolean column of the
`matches` table (schema line 28), not a value recomputed from a raw
status token — the raw status token is not persisted at all.  Two
valid rows agree on every other column yet differ on `is_live`, so the
stored flag is independent state that can go stale. -/
theorem isLive_recomputed_counterexample :
    ¬ isLiveDeterminedByRow exampleStoredRowLive exampleStoredRow := by
  intro h
  have : exampleStoredRowLive.is_live = exampleStoredRow.is_live := by
    refine h ⟨?_, ?_, ?_, ?_, ?_, ?_, ?_, ?_, ?_, ?_, ?_, ?_, ?_, ?_, ?_⟩ <;> decide
  simp [exampleStoredRowLive, exampleStoredRow] at this

/-- C8 amended: the schema persists liveness as an independent boolean
column `is_live` (default false) and does not persist the status
token; two rows of the `matches` table can agree on every other column
and still differ on `is_live`. -/
theorem isLive_independent_column :
    ∃ r1 r2 : MatchRow,
      r1.id = r2.id ∧ r1.kickoff = r2.kickoff ∧ r1.synced_at = r2.synced_at ∧
      r1.home_team = r2.home_team ∧ r1.away_team = r2.away_team ∧
      r1.competition = r2.competition ∧ r1.competition_type = r2.competition_type ∧
      r1.is_live ≠ r2.is_live :=
  ⟨exampleStoredRowLive, exampleStoredRow, by decide, by decide, by decide,
    by decide, by decide, by decide, by decide, by decide⟩

/-- C9: single-flight — starting `resolve` for an uncached name with a
resolution already in flight joins the existing shared promise and
does not touch upstream.  For two concurrent calls on the same
uncached name: the first starts promise `p` and counts one upstream
invocation, the second joins that same `p`, leaves the state unchanged
(so exactly one upstream geocode invocation happens in total), and
both callers thus await the same result. -/
theorem singleFlight_geocode (s : GeoState) (name : String)
    (hc : s.cache name = none) (hf : s.inflight name = none) :
    (resolveStart s name).1 = ResolveOutcome.started s.nextPromise ∧
    (resolveStart (resolveStart s name).2 name).1 = ResolveOutcome.joined s.nextPromise ∧
    (resolveStart (resolveStart s name).2 name).2.upstreamCalls = s.upstreamCalls + 1 ∧
    (resolveStart (resolveStart s name).2 name).2 = (resolveStart s name).2 := by
  simp [resolveStart, hc, hf]

/-- The empty geocode cache: nothing resolved, nothing in flight, no
upstream calls made. -/
def emptyGeoState : GeoState :=
  { cache := fun _ => none
    inflight := fun _ => none
    upstreamCalls := 0
    nextPromise := 0 }

/-- Witness for `singleFlight_geocode` from the empty cache: two
concurrent resolutions of "Munich" share promise 0 and cost exactly
one upstream call. -/
theorem singleFlight_geocode_witness :
    (resolveStart emptyGeoState "Munich").1 = ResolveOutcome.started 0 ∧
    (resolveStart (resolveStart emptyGeoState "Munich").2 "Munich").1 =
      ResolveOutcome.joined 0 ∧
    (resolveStart (resolveStart emptyGeoState "Munich").2 "Munich").2.upstreamCalls = 1 := by
  have h := singleFlight_geocode emptyGeoState "Munich" rfl rfl
  exact ⟨h.1, h.2.1, h.2.2.1⟩
